import Mathlib

/-!
Verification of the music-tutor pipeline of this repository: the static
knowledge tables (`slakh_instrument_data.py`, `musictheory_net_data.py`,
`professional_performance_data.py`), the topic classifier and context
enricher of `qwen_music_tutor.py`, the conversation-session logic of its
`interactive_mode`/`chat_response`, and the history handling of
`openai_music_tutor.py`'s `generate_response`.

Conventions of the embedding:

* Python strings are Lean `String`s; `text.lower()` is `pyLower` (an ASCII
  model of `str.lower`; every string in the repository's tables and every
  input considered here is ASCII except `°`, which `str.lower` leaves
  unchanged, as does `pyLower`).
* Python's substring operator `needle in hay` is `substr`.
* Python dicts become association lists in insertion order; Python sets of
  keywords become lists (they are only ever used for membership tests, so
  duplicates and order are irrelevant).
* The handful of fixed regular expressions are transcribed token by token
  into a tiny matcher (`RTok`, `reSearch`) supporting exactly the constructs
  they use: single-character classes, `?` on a single-character class, and
  the word-boundary assertion `\b` (with `\w` modelled as ASCII
  letter/digit/underscore, which agrees with Python on all characters
  appearing here).
* The external chat collaborator is a parameter of type `LLMResult`: either
  the text it returns or the exception message it raises.
-/

/-- ASCII uppercase-to-lowercase table for `pyLower`. -/
def caseTable : List (Char × Char) :=
  [('A','a'), ('B','b'), ('C','c'), ('D','d'), ('E','e'), ('F','f'), ('G','g'),
   ('H','h'), ('I','i'), ('J','j'), ('K','k'), ('L','l'), ('M','m'), ('N','n'),
   ('O','o'), ('P','p'), ('Q','q'), ('R','r'), ('S','s'), ('T','t'), ('U','u'),
   ('V','v'), ('W','w'), ('X','x'), ('Y','y'), ('Z','z')]

/-- Lowercase one character (ASCII model of Python `str.lower`). -/
def lowerChar (c : Char) : Char :=
  ((caseTable.find? (fun p => p.1 == c)).map Prod.snd).getD c

/-- The 26 ASCII lowercase letters. -/
def asciiLowers : List Char :=
  ['a','b','c','d','e','f','g','h','i','j','k','l','m',
   'n','o','p','q','r','s','t','u','v','w','x','y','z']

/-- Model of Python `text.lower()`. -/
def pyLower (s : String) : String := String.mk (s.data.map lowerChar)

/-- Is `as` a prefix of `bs`? -/
def listIsPrefixOf : List Char → List Char → Bool
  | [], _ => true
  | _ :: _, [] => false
  | a :: as, b :: bs => a == b && listIsPrefixOf as bs

/-- Does `needle` occur contiguously inside the second list? -/
def listIsInfixOf (needle : List Char) : List Char → Bool
  | [] => listIsPrefixOf needle []
  | b :: bs => listIsPrefixOf needle (b :: bs) || listIsInfixOf needle bs

/-- Model of Python's substring test `needle in hay`. -/
def substr (needle hay : String) : Bool := listIsInfixOf needle.data hay.data

/-- Model of Python `s.startswith(pre)`. -/
def py_startswith (s pre : String) : Bool := listIsPrefixOf pre.data s.data

/-- Python `\w` (ASCII fragment): letter, digit or underscore. -/
def isWordChar (c : Char) : Bool :=
  ('a' ≤ c && c ≤ 'z') || ('A' ≤ c && c ≤ 'Z') || ('0' ≤ c && c ≤ '9') || c = '_'

/-- One token of the transcribed regular expressions: a single-character
class, an optional single-character class (`?`), or the zero-width word
boundary `\b`. -/
inductive RTok where
  | cls (p : Char → Bool)
  | opt (p : Char → Bool)
  | bnd

/-- Is the first character of the list a word character (`false` at the end
of the input)? -/
def headIsWord : List Char → Bool
  | [] => false
  | c :: _ => isWordChar c

/-- Match a token sequence at the current position; `pw` records whether the
character just before the current position is a word character.  The `opt`
case tries both alternatives, so the match is complete (backtracking). -/
def matchToks : List RTok → Bool → List Char → Bool
  | [], _, _ => true
  | .bnd :: ts, pw, s => (pw != headIsWord s) && matchToks ts pw s
  | .cls _ :: _, _, [] => false
  | .cls p :: ts, _, c :: s => p c && matchToks ts (isWordChar c) s
  | .opt p :: ts, pw, s =>
    (match s with
     | c :: s2 => p c && matchToks ts (isWordChar c) s2
     | [] => false) || matchToks ts pw s

/-- Try to match at every position, left to right (Python `re.search`). -/
def reSearchAux (ts : List RTok) : Bool → List Char → Bool
  | pw, s =>
    matchToks ts pw s ||
      (match s with
       | [] => false
       | c :: s2 => reSearchAux ts (isWordChar c) s2)

/-- Model of `re.search(pattern, s)` returning whether a match exists. -/
def reSearch (ts : List RTok) (s : String) : Bool := reSearchAux ts false s.data
/-! Static knowledge tables, transcribed from `slakh_instrument_data.py`,
`musictheory_net_data.py` and `professional_performance_data.py`.  Python
dicts become association lists (insertion order preserved); Python sets of
keywords become lists (membership-only use makes duplicates and order
irrelevant). -/

/-- Record for one entry of `SLAKH_INSTRUMENT_CLASSES`. -/
structure SlakhClassInfo where
  description : String
  midi_programs : List Nat
  characteristics : String
  techniques : List String
deriving DecidableEq

/-- The 34 Slakh instrument classes (`SLAKH_INSTRUMENT_CLASSES`). -/
def SLAKH_INSTRUMENT_CLASSES : List (String × SlakhClassInfo) := [
  ("Acoustic Guitar",
   ⟨"Acoustic steel-string and nylon-string guitars",
    [24, 25],
    "Natural resonance, percussive attack, harmonic overtones",
    ["fingerpicking", "strumming", "harmonics", "alternate picking"]⟩),
  ("Electric Guitar",
   ⟨"Clean and distorted electric guitars",
    [26, 27, 28, 29, 30, 31],
    "Sustain, distortion, effects processing, dynamic range",
    ["bending", "vibrato", "palm muting", "tapping", "slide"]⟩),
  ("Bass",
   ⟨"Electric and acoustic bass guitars",
    [32, 33, 34, 35, 36, 37, 38, 39],
    "Low frequency foundation, rhythmic pulse, harmonic support",
    ["slapping", "popping", "fingerstyle", "pick playing"]⟩),
  ("Violin",
   ⟨"Orchestral and solo violin",
    [40],
    "Continuous bowing, vibrato, wide dynamic range",
    ["legato", "staccato", "pizzicato", "tremolo", "double stops"]⟩),
  ("Viola",
   ⟨"Mid-range string instrument",
    [41],
    "Warmer than violin, darker tone, alto clef",
    ["bowing", "pizzicato", "vibrato", "sul ponticello"]⟩),
  ("Cello",
   ⟨"Bass-range bowed string instrument",
    [42],
    "Rich low frequencies, expressive bowing, wide range",
    ["arco", "pizzicato", "harmonics", "thumb position"]⟩),
  ("Contrabass",
   ⟨"Double bass, orchestral bass",
    [43],
    "Lowest string instrument, fundamental bass support",
    ["bowing", "pizzicato", "slapping"]⟩),
  ("Piano",
   ⟨"Acoustic grand and upright pianos",
    [0, 1, 2, 3],
    "Percussive attack, sustain pedal, wide dynamic range",
    ["legato", "staccato", "pedaling", "voicing", "articulation"]⟩),
  ("Electric Piano",
   ⟨"Electric and digital pianos",
    [4, 5],
    "Bell-like attack, chorus effects, vintage character",
    ["velocity sensitivity", "tremolo", "effects processing"]⟩),
  ("Harpsichord",
   ⟨"Baroque keyboard instrument",
    [6],
    "Plucked strings, percussive attack, no dynamics",
    ["articulation", "ornamentation", "registration"]⟩),
  ("Clavinet",
   ⟨"Funky electric keyboard",
    [7],
    "Percussive, funky, often with wah effects",
    ["staccato playing", "effects processing"]⟩),
  ("Organ",
   ⟨"Hammond and pipe organs",
    [16, 17, 18, 19, 20, 21, 22, 23],
    "Sustained tones, drawbar harmonics, rotary speaker",
    ["registration", "drawbar settings", "leslie speaker effects"]⟩),
  ("Flute",
   ⟨"Concert flute family",
    [73],
    "Breathy attack, pure tone, wide range",
    ["vibrato", "flutter tonguing", "breath control"]⟩),
  ("Oboe",
   ⟨"Double-reed woodwind",
    [68],
    "Nasal tone, expressive, difficult intonation",
    ["reed control", "vibrato", "dynamics"]⟩),
  ("Clarinet",
   ⟨"Single-reed woodwind",
    [71],
    "Woody tone, wide range, register breaks",
    ["embouchure control", "altissimo", "multiphonics"]⟩),
  ("Saxophone",
   ⟨"Alto, tenor, soprano, baritone saxophone",
    [64, 65, 66, 67],
    "Reedy tone, expressive, jazz association",
    ["vibrato", "growling", "altissimo", "overtones"]⟩),
  ("Trumpet",
   ⟨"Brass instrument, highest brass",
    [56],
    "Bright, penetrating, fanfare-like",
    ["lip trills", "muting", "double tonguing", "valve techniques"]⟩),
  ("French Horn",
   ⟨"Orchestral brass instrument",
    [60],
    "Warm, mellow, complex harmonics",
    ["hand stopping", "lip trills", "rips"]⟩),
  ("Trombone",
   ⟨"Slide brass instrument",
    [57],
    "Slide glissando, powerful low register",
    ["glissando", "lip trills", "multiphonics"]⟩),
  ("Tuba",
   ⟨"Lowest brass instrument",
    [58],
    "Deep fundamental, brass choir foundation",
    ["breath support", "articulation", "pedal tones"]⟩),
  ("Drums",
   ⟨"Acoustic drum kit",
    [128],
    "Percussive transients, rhythmic foundation",
    ["rudiments", "ghost notes", "dynamics", "fills"]⟩),
  ("Pitched Percussion",
   ⟨"Xylophone, marimba, vibes, timpani",
    [8, 9, 10, 11, 12, 13, 14, 15],
    "Mallet instruments, pitch and percussion combined",
    ["mallet techniques", "rolls", "tremolo"]⟩),
  ("Ethnic",
   ⟨"World music instruments",
    [104, 105, 106, 107, 108, 109, 110, 111],
    "Cultural authenticity, unique timbres",
    ["traditional playing methods", "microtonal inflections"]⟩),
  ("Synth Lead",
   ⟨"Synthesizer lead sounds",
    [80, 81, 82, 83, 84, 85, 86, 87],
    "Electronic timbres, filter sweeps, modulation",
    ["filter modulation", "LFO effects", "portamento"]⟩),
  ("Synth Pad",
   ⟨"Synthesizer pad sounds",
    [88, 89, 90, 91, 92, 93, 94, 95],
    "Sustained textures, atmospheric, ambient",
    ["slow attacks", "filter sweeps", "reverb"]⟩),
  ("Synth Effects",
   ⟨"Special synthesizer effects",
    [96, 97, 98, 99, 100, 101, 102, 103],
    "Atmospheric, textural, sound design",
    ["sound design", "effects processing"]⟩),
  ("Voice",
   ⟨"Human vocals and vocal ensembles",
    [52, 53, 54, 55],
    "Lyrical content, human expression, formants",
    ["vibrato", "dynamics", "articulation", "breath control"]⟩),
  ("Harp",
   ⟨"Concert harp",
    [46],
    "Arpeggiated textures, glissando effects",
    ["glissando", "harmonics", "pedal techniques"]⟩),
  ("Dulcimer",
   ⟨"Hammered dulcimer",
    [15],
    "Mallet-struck strings, folk character",
    ["hammer techniques", "roll patterns"]⟩),
  ("Banjo",
   ⟨"Five-string banjo",
    [105],
    "Bright, percussive, folk/bluegrass",
    ["clawhammer", "three-finger picking", "rolls"]⟩),
  ("Fiddle",
   ⟨"Folk violin playing style",
    [110],
    "Folk ornamentation, driving rhythms",
    ["shuffle bowing", "double stops", "drones"]⟩),
  ("Accordion",
   ⟨"Bellows-driven reed instrument",
    [21, 22, 23],
    "Bellows expression, folk character",
    ["bellows control", "bass/chord accompaniment"]⟩),
  ("Harmonica",
   ⟨"Diatonic and chromatic harmonica",
    [22],
    "Breath-driven, bending notes, blues association",
    ["bending", "overblowing", "vibrato"]⟩),
  ("Strings",
   ⟨"Orchestral string sections",
    [48, 49, 50, 51],
    "Lush orchestral textures, bowing articulations",
    ["ensemble bowing", "divisi", "dynamics"]⟩)
]

/-- MIDI program number to Slakh class mapping (`MIDI_TO_SLAKH_CLASS`). -/
def MIDI_TO_SLAKH_CLASS : List (Nat × String) := [
  (0, "Piano"), (1, "Piano"), (2, "Piano"), (3, "Piano"),
  (4, "Electric Piano"), (5, "Electric Piano"), (6, "Harpsichord"), (7, "Clavinet"),
  (8, "Pitched Percussion"), (9, "Pitched Percussion"), (10, "Pitched Percussion"), (11, "Pitched Percussion"),
  (12, "Pitched Percussion"), (13, "Pitched Percussion"), (14, "Pitched Percussion"), (15, "Dulcimer"),
  (16, "Organ"), (17, "Organ"), (18, "Organ"), (19, "Organ"),
  (20, "Organ"), (21, "Accordion"), (22, "Harmonica"), (23, "Accordion"),
  (24, "Acoustic Guitar"), (25, "Acoustic Guitar"), (26, "Electric Guitar"), (27, "Electric Guitar"),
  (28, "Electric Guitar"), (29, "Electric Guitar"), (30, "Electric Guitar"), (31, "Electric Guitar"),
  (32, "Bass"), (33, "Bass"), (34, "Bass"), (35, "Bass"),
  (36, "Bass"), (37, "Bass"), (38, "Bass"), (39, "Bass"),
  (40, "Violin"), (41, "Viola"), (42, "Cello"), (43, "Contrabass"),
  (44, "Violin"), (45, "Violin"), (46, "Harp"), (47, "Strings"),
  (48, "Strings"), (49, "Strings"), (50, "Strings"), (51, "Strings"),
  (52, "Voice"), (53, "Voice"), (54, "Voice"), (55, "Voice"),
  (56, "Trumpet"), (57, "Trombone"), (58, "Tuba"), (59, "Trumpet"),
  (60, "French Horn"), (61, "Brass"), (62, "Brass"), (63, "Brass"),
  (64, "Saxophone"), (65, "Saxophone"), (66, "Saxophone"), (67, "Saxophone"),
  (68, "Oboe"), (69, "English Horn"), (70, "Bassoon"), (71, "Clarinet"),
  (72, "Piccolo"), (73, "Flute"), (74, "Recorder"), (75, "Pan Flute"),
  (76, "Blown Bottle"), (77, "Shakuhachi"), (78, "Whistle"), (79, "Ocarina"),
  (80, "Synth Lead"), (81, "Synth Lead"), (82, "Synth Lead"), (83, "Synth Lead"),
  (84, "Synth Lead"), (85, "Synth Lead"), (86, "Synth Lead"), (87, "Synth Lead"),
  (88, "Synth Pad"), (89, "Synth Pad"), (90, "Synth Pad"), (91, "Synth Pad"),
  (92, "Synth Pad"), (93, "Synth Pad"), (94, "Synth Pad"), (95, "Synth Pad"),
  (96, "Synth Effects"), (97, "Synth Effects"), (98, "Synth Effects"), (99, "Synth Effects"),
  (100, "Synth Effects"), (101, "Synth Effects"), (102, "Synth Effects"), (103, "Synth Effects"),
  (104, "Ethnic"), (105, "Banjo"), (106, "Ethnic"), (107, "Ethnic"),
  (108, "Ethnic"), (109, "Ethnic"), (110, "Fiddle"), (111, "Ethnic"),
  (112, "Pitched Percussion"), (113, "Pitched Percussion"), (114, "Pitched Percussion"), (115, "Pitched Percussion"),
  (116, "Pitched Percussion"), (117, "Pitched Percussion"), (118, "Pitched Percussion"), (119, "Pitched Percussion"),
  (120, "Synth Effects"), (121, "Synth Effects"), (122, "Synth Effects"), (123, "Synth Effects"),
  (124, "Synth Effects"), (125, "Synth Effects"), (126, "Synth Effects"), (127, "Synth Effects"),
  (128, "Drums")
]

/-- Professional instrument terminology (`PROFESSIONAL_INSTRUMENT_TERMS`),
category name paired with its keyword list. -/
def PROFESSIONAL_INSTRUMENT_TERMS : List (String × List String) := [
  ("guitar_advanced",
   ["amp simulation",
    "cabinet modeling",
    "pickup selection",
    "coil splitting",
    "overdrive",
    "distortion",
    "fuzz",
    "chorus",
    "delay",
    "reverb",
    "wah pedal",
    "volume swells",
    "feedback",
    "sustain",
    "attack",
    "les paul",
    "stratocaster",
    "telecaster",
    "hollow body",
    "semi-hollow"]),
  ("piano_advanced",
   ["velocity layers",
    "pedal resonance",
    "string resonance",
    "hammer noise",
    "release samples",
    "una corda",
    "sostenuto pedal",
    "soft pedal",
    "prepared piano",
    "pianissimo",
    "fortissimo",
    "voicing"]),
  ("brass_advanced",
   ["embouchure",
    "mouthpiece",
    "valve technique",
    "slide positions",
    "lip trills",
    "double tonguing",
    "triple tonguing",
    "flutter tonguing",
    "stopped horn",
    "open horn",
    "muted trumpet",
    "harmon mute",
    "cup mute"]),
  ("woodwind_advanced",
   ["reed strength",
    "embouchure",
    "altissimo",
    "multiphonics",
    "circular breathing",
    "flutter tonguing",
    "key clicks",
    "subtone",
    "growling",
    "honking",
    "bending",
    "pitch bending"]),
  ("strings_advanced",
   ["bowing technique",
    "bow pressure",
    "bow speed",
    "bow placement",
    "sul ponticello",
    "sul tasto",
    "col legno",
    "pizzicato",
    "arco",
    "harmonics",
    "double stops",
    "vibrato",
    "portamento",
    "glissando"]),
  ("drums_advanced",
   ["ghost notes",
    "flams",
    "paradiddles",
    "rolls",
    "rim shots",
    "cross sticking",
    "hi-hat control",
    "bass drum technique",
    "snare tuning",
    "cymbal technique",
    "polyrhythms",
    "linear playing"]),
  ("synthesis_advanced",
   ["oscillator",
    "filter cutoff",
    "resonance",
    "envelope",
    "ADSR",
    "LFO",
    "modulation",
    "frequency modulation",
    "amplitude modulation",
    "ring modulation",
    "granular synthesis",
    "wavetable synthesis",
    "additive synthesis",
    "subtractive synthesis"]),
  ("production_advanced",
   ["sample rate",
    "bit depth",
    "latency",
    "buffer size",
    "MIDI CC",
    "velocity sensitivity",
    "aftertouch",
    "pitch bend",
    "modulation wheel",
    "expression pedal",
    "breath controller",
    "round robin sampling"])
]

/-- The `current_keywords` set built inside `get_enhanced_music_keywords`. -/
def slakh_current_keywords : List String := [
  "measures", "piano", "melody", "chord", "violin",
  "note", "cello", "numbers", "musical", "key",
  "chord progression", "nashville", "mandolin", "number system", "drums",
  "bars", "interval", "harmonic", "synth", "rhythmic",
  "bar", "theory", "rhythm", "keys", "tempo",
  "bass", "notes", "organ", "chords", "saxophone",
  "harmonica", "measure", "music", "harmony", "scale",
  "keyboard", "trumpet", "beat", "banjo", "scales",
  "guitar", "melodic", "ukulele", "chord progressions", "intervals"
]

/-- Music-theory terminology categories (`MUSIC_THEORY_TERMS`). -/
def MUSIC_THEORY_TERMS : List (String × List String) := [
  ("notation_terms",
   ["staff",
    "clef",
    "treble clef",
    "bass clef",
    "alto clef",
    "tenor clef",
    "ledger lines",
    "grand staff",
    "note head",
    "stem",
    "flag",
    "beam",
    "whole note",
    "half note",
    "quarter note",
    "eighth note",
    "sixteenth note",
    "dotted note",
    "tied note",
    "rest",
    "measure",
    "bar line",
    "time signature"]),
  ("rhythm_terms",
   ["beat",
    "tempo",
    "meter",
    "simple meter",
    "compound meter",
    "duple",
    "triple",
    "quadruple",
    "syncopation",
    "polyrhythm",
    "hemiola",
    "augmentation",
    "diminution",
    "anacrusis",
    "upbeat",
    "downbeat",
    "strong beat",
    "weak beat"]),
  ("pitch_terms",
   ["pitch",
    "frequency",
    "octave",
    "half step",
    "whole step",
    "semitone",
    "tone",
    "sharp",
    "flat",
    "natural",
    "double sharp",
    "double flat",
    "enharmonic",
    "scale",
    "mode",
    "major scale",
    "minor scale",
    "chromatic scale",
    "pentatonic",
    "blues scale",
    "whole tone scale",
    "octatonic scale"]),
  ("interval_terms",
   ["interval",
    "unison",
    "second",
    "third",
    "fourth",
    "fifth",
    "sixth",
    "seventh",
    "perfect",
    "major",
    "minor",
    "augmented",
    "diminished",
    "tritone",
    "consonant",
    "dissonant",
    "compound interval",
    "interval inversion"]),
  ("harmony_terms",
   ["chord",
    "triad",
    "seventh chord",
    "ninth chord",
    "eleventh chord",
    "thirteenth chord",
    "root",
    "third",
    "fifth",
    "seventh",
    "tension",
    "extension",
    "alteration",
    "inversion",
    "root position",
    "first inversion",
    "second inversion",
    "voice leading",
    "doubling",
    "spacing",
    "figured bass"]),
  ("tonality_terms",
   ["key",
    "key signature",
    "tonic",
    "dominant",
    "subdominant",
    "relative key",
    "parallel key",
    "circle of fifths",
    "modulation",
    "tonicization",
    "pivot chord",
    "common tone",
    "major key",
    "minor key",
    "modal",
    "atonal",
    "chromatic"]),
  ("functional_terms",
   ["tonic function",
    "predominant function",
    "dominant function",
    "resolution",
    "preparation",
    "tendency tone",
    "leading tone",
    "cadence",
    "authentic cadence",
    "plagal cadence",
    "deceptive cadence",
    "half cadence",
    "phrase",
    "period",
    "antecedent",
    "consequent"]),
  ("advanced_terms",
   ["nonharmonic tone",
    "passing tone",
    "neighbor tone",
    "suspension",
    "retardation",
    "anticipation",
    "escape tone",
    "appoggiatura",
    "changing tone",
    "secondary dominant",
    "borrowed chord",
    "neapolitan chord",
    "augmented sixth",
    "diminished seventh",
    "common tone diminished seventh"])
]

/-- One lesson of the musictheory.net curriculum: concept list, explanation
and key points. -/
structure TheoryLesson where
  name : String
  concepts : List String
  explanation : String
  key_points : List String
deriving DecidableEq

/-- One section of the curriculum: its description and its lessons. -/
structure TheorySection where
  description : String
  lessons : List TheoryLesson
deriving DecidableEq

/-- The complete curriculum (`MUSICTHEORY_NET_CURRICULUM`). -/
def MUSICTHEORY_NET_CURRICULUM : List (String × TheorySection) := [
  ("the_basics",
   ⟨"Fundamental music notation and basic concepts",
   [
    ⟨"staff",
     ["treble clef", "bass clef", "ledger lines", "grand staff", "alto clef", "tenor clef"],
     "The staff is the foundation of music notation, consisting of five lines and four spaces where notes are placed.",
     ["Treble clef (G clef) - used for higher pitched instruments and voices",
      "Bass clef (F clef) - used for lower pitched instruments and voices",
      "Ledger lines extend the staff for notes above or below",
      "Grand staff combines treble and bass clefs for piano music"]⟩,
    ⟨"note_duration",
     ["whole note", "half note", "quarter note", "eighth note", "sixteenth note", "thirty-second note"],
     "Note duration determines how long a sound is held in relation to the beat.",
     ["Whole note = 4 beats in 4/4 time",
      "Half note = 2 beats",
      "Quarter note = 1 beat",
      "Eighth note = 1/2 beat",
      "Each subdivision divides the previous duration in half"]⟩,
    ⟨"measures_and_time_signatures",
     ["measure", "bar line", "double bar line", "time signature", "beat", "strong beat", "weak beat"],
     "Measures organize music into regular groupings of beats, defined by time signatures.",
     ["Time signature: top number = beats per measure, bottom number = note value for one beat",
      "4/4 time: 4 quarter note beats per measure",
      "3/4 time: 3 quarter note beats per measure (waltz time)",
      "2/4 time: 2 quarter note beats per measure (march time)"]⟩,
    ⟨"rests",
     ["whole rest", "half rest", "quarter rest", "eighth rest", "sixteenth rest", "silence"],
     "Rests represent periods of silence with durations corresponding to note values.",
     ["Rests have the same duration relationships as notes",
      "Whole rest hangs from the fourth line",
      "Half rest sits on the third line",
      "Quarter rest is the most complex symbol"]⟩,
    ⟨"dots_and_ties",
     ["dotted note", "tied note", "duration extension", "augmentation"],
     "Dots and ties extend note durations beyond basic note values.",
     ["Dot adds half the original note value (dotted half = 3 beats)",
      "Tie connects notes of the same pitch for combined duration",
      "Ties can cross bar lines, dots cannot",
      "Multiple dots possible but rare"]⟩,
    ⟨"steps_and_accidentals",
     ["half step", "whole step", "sharp", "flat", "natural", "enharmonic equivalents"],
     "Steps define the distance between pitches, accidentals alter pitch by half steps.",
     ["Half step = smallest interval (semitone)",
      "Whole step = two half steps",
      "Sharp raises pitch by half step",
      "Flat lowers pitch by half step",
      "Natural cancels previous accidental"]⟩]⟩),
  ("rhythm_and_meter",
   ⟨"Advanced rhythmic concepts and metric organization",
   [
    ⟨"simple_meter",
     ["simple meter", "duple", "triple", "quadruple", "beat division", "subdivision"],
     "Simple meters divide beats into two equal parts (binary division).",
     ["2/4, 3/4, 4/4 are simple meters",
      "Beat divides into two eighth notes",
      "Strong beats occur on beat 1 (and 3 in 4/4)",
      "Conducting patterns reflect meter groupings"]⟩,
    ⟨"compound_meter",
     ["compound meter", "dotted note beat", "triple subdivision", "6/8", "9/8", "12/8"],
     "Compound meters divide beats into three equal parts (ternary division).",
     ["6/8, 9/8, 12/8 are compound meters",
      "Beat is dotted quarter note in compound time",
      "Beat divides into three eighth notes",
      "6/8 has two beats per measure (not six)"]⟩,
    ⟨"odd_meter",
     ["odd meter", "asymmetrical meter", "5/4", "7/8", "mixed meter", "additive rhythm"],
     "Odd meters have unusual beat groupings that don\x27t fit standard patterns.",
     ["5/4 can be grouped as 3+2 or 2+3",
      "7/8 common in folk music and progressive rock",
      "Mixed meters change time signature within pieces",
      "Requires careful attention to beat groupings"]⟩]⟩),
  ("scales_and_key_signatures",
   ⟨"Scale construction, key relationships, and tonal organization",
   [
    ⟨"major_scales",
     ["major scale", "whole step", "half step", "scale pattern", "tonic", "diatonic"],
     "Major scales follow the pattern W-W-H-W-W-W-H and establish key centers.",
     ["Pattern: Whole-Whole-Half-Whole-Whole-Whole-Half",
      "Seven different pitches plus octave",
      "Sounds bright and happy",
      "Foundation for major key harmony"]⟩,
    ⟨"minor_scales",
     ["natural minor", "harmonic minor", "melodic minor", "relative minor", "parallel minor"],
     "Minor scales create darker moods with different interval patterns.",
     ["Natural minor: W-H-W-W-H-W-W",
      "Harmonic minor: raised 7th scale degree",
      "Melodic minor: raised 6th and 7th ascending, natural descending",
      "Relative minor shares key signature with major"]⟩,
    ⟨"scale_degrees",
     ["tonic", "supertonic", "mediant", "subdominant", "dominant", "submediant", "leading tone"],
     "Scale degrees have specific names and harmonic functions.",
     ["1st degree: Tonic (home, stability)",
      "5th degree: Dominant (tension, wants to resolve)",
      "4th degree: Subdominant (departure from tonic)",
      "7th degree: Leading tone (pulls to tonic)"]⟩,
    ⟨"key_signatures",
     ["key signature", "circle of fifths", "order of sharps", "order of flats", "enharmonic keys"],
     "Key signatures indicate which notes to play sharp or flat throughout a piece.",
     ["Sharps: F# C# G# D# A# E# B#",
      "Flats: Bb Eb Ab Db Gb Cb Fb",
      "Circle of fifths shows key relationships",
      "Major and minor keys share signatures"]⟩]⟩),
  ("intervals",
   ⟨"Distance relationships between pitches",
   [
    ⟨"generic_intervals",
     ["unison", "second", "third", "fourth", "fifth", "sixth", "seventh", "octave"],
     "Generic intervals count letter names between pitches.",
     ["Count both starting and ending notes",
      "C to E is a third (C-D-E = 3 letters)",
      "Quality not specified in generic intervals",
      "Foundation for specific interval identification"]⟩,
    ⟨"specific_intervals",
     ["perfect", "major", "minor", "augmented", "diminished", "interval quality"],
     "Specific intervals combine generic interval with quality designation.",
     ["Perfect intervals: unison, 4th, 5th, octave",
      "Major/minor intervals: 2nd, 3rd, 6th, 7th",
      "Augmented = larger than major/perfect",
      "Diminished = smaller than minor/perfect"]⟩,
    ⟨"interval_inversion",
     ["interval inversion", "complementary intervals", "compound intervals"],
     "Inverted intervals flip the order of pitches and change quality predictably.",
     ["Generic intervals add to 9 when inverted",
      "Perfect intervals stay perfect",
      "Major becomes minor and vice versa",
      "Augmented becomes diminished and vice versa"]⟩]⟩),
  ("chords",
   ⟨"Harmonic structures built from intervals",
   [
    ⟨"triads",
     ["triad", "root", "third", "fifth", "major triad", "minor triad", "diminished triad", "augmented triad"],
     "Triads are three-note chords built with thirds, forming the basis of tonal harmony.",
     ["Major triad: major 3rd + minor 3rd",
      "Minor triad: minor 3rd + major 3rd",
      "Diminished triad: minor 3rd + minor 3rd",
      "Augmented triad: major 3rd + major 3rd"]⟩,
    ⟨"seventh_chords",
     ["seventh chord", "major seventh", "minor seventh", "dominant seventh", "half-diminished", "fully diminished"],
     "Seventh chords add a seventh above the root to triads, creating richer harmony.",
     ["Major 7th: major triad + major 7th",
      "Minor 7th: minor triad + minor 7th",
      "Dominant 7th: major triad + minor 7th",
      "Half-diminished: diminished triad + minor 7th"]⟩,
    ⟨"chord_inversions",
     ["root position", "first inversion", "second inversion", "third inversion", "bass note"],
     "Inversions change which chord tone appears in the bass.",
     ["Root position: root in bass",
      "First inversion: third in bass",
      "Second inversion: fifth in bass",
      "Third inversion: seventh in bass (seventh chords only)"]⟩]⟩),
  ("diatonic_chords",
   ⟨"Chords built from scale degrees within a key",
   [
    ⟨"diatonic_triads",
     ["diatonic harmony", "chord progression", "tonic", "predominant", "dominant", "functional harmony"],
     "Diatonic triads are built on each scale degree using only notes from the key.",
     ["Major key pattern: I ii iii IV V vi vii°",
      "Minor key pattern: i ii° III iv v VI VII",
      "Roman numerals indicate chord quality and scale degree",
      "Each chord has harmonic function"]⟩,
    ⟨"roman_numeral_analysis",
     ["roman numerals", "chord symbols", "harmonic analysis", "chord function"],
     "Roman numeral analysis shows chord relationships within keys.",
     ["Uppercase = major chords",
      "Lowercase = minor chords",
      "° = diminished, + = augmented",
      "Numbers show inversions (I6, V64)"]⟩]⟩),
  ("chord_progressions",
   ⟨"Movement between chords and harmonic rhythm",
   [
    ⟨"common_progressions",
     ["I-V-I", "ii-V-I", "vi-IV-I-V", "circle of fifths progression", "deceptive cadence"],
     "Certain chord progressions create strong harmonic movement and resolution.",
     ["I-V-I: strongest progression in tonal music",
      "ii-V-I: foundation of jazz harmony",
      "vi-IV-I-V: popular music progression",
      "Root motion by fifths is strongest"]⟩,
    ⟨"cadences",
     ["authentic cadence", "plagal cadence", "deceptive cadence", "half cadence"],
     "Cadences provide points of rest and closure in musical phrases.",
     ["Authentic: V-I (strongest closure)",
      "Plagal: IV-I (amen cadence)",
      "Deceptive: V-vi (avoids expected resolution)",
      "Half: ends on V (creates expectation)"]⟩,
    ⟨"nonharmonic_tones",
     ["passing tone", "neighbor tone", "suspension", "retardation", "anticipation", "escape tone"],
     "Nonharmonic tones add melodic interest while temporarily stepping outside the harmony.",
     ["Passing tone: connects chord tones stepwise",
      "Neighbor tone: steps away and returns",
      "Suspension: resolves down by step",
      "Anticipation: jumps early to next chord tone"]⟩]⟩)
]

/-- Keys of `SCALE_PATTERNS` (only the keys feed the keyword set). -/
def SCALE_PATTERNS_keys : List String := ["major_scale", "natural_minor", "modes"]

/-- Keys of `CHORD_CONSTRUCTION["triads"]`. -/
def CHORD_CONSTRUCTION_triads_keys : List String := ["major", "minor", "diminished", "augmented"]

/-- Keys of `CHORD_CONSTRUCTION["seventh_chords"]`. -/
def CHORD_CONSTRUCTION_seventh_chords_keys : List String := ["major_seventh", "minor_seventh", "dominant_seventh", "half_diminished", "fully_diminished"]

/-- Professional performance keyword categories
(`PROFESSIONAL_PERFORMANCE_KEYWORDS`). -/
def PROFESSIONAL_PERFORMANCE_KEYWORDS : List (String × List String) := [
  ("advanced_nashville",
   ["key changes",
    "chart reading",
    "progression calling",
    "studio communication",
    "session work",
    "producer language",
    "arrangement notation",
    "demo creation",
    "modal nashville",
    "complex progressions",
    "form notation",
    "tempo changes"]),
  ("ear_training",
   ["transcription",
    "melody transcription",
    "chord transcription",
    "bass transcription",
    "solo transcription",
    "by ear",
    "interval recognition",
    "chord recognition",
    "harmonic analysis",
    "rhythm transcription",
    "real time analysis",
    "key identification"]),
  ("advanced_voicings",
   ["chord voicings",
    "jazz voicings",
    "rootless voicings",
    "shell voicings",
    "upper structure",
    "quartal voicings",
    "contemporary voicings",
    "capo techniques",
    "partial capo",
    "neck positions",
    "voice leading",
    "chord inversions",
    "fingering patterns",
    "position playing"]),
  ("performance",
   ["improvisation",
    "melodic development",
    "rhythmic displacement",
    "motivic development",
    "arrangement techniques",
    "live performance",
    "stage presence",
    "performance preparation",
    "mistake recovery",
    "band communication",
    "creative expression",
    "personal style"]),
  ("tone_production",
   ["signal chain",
    "signal flow",
    "impedance matching",
    "gain staging",
    "effects usage",
    "modulation effects",
    "time based effects",
    "distortion techniques",
    "recording techniques",
    "microphone placement",
    "direct recording",
    "live sound",
    "monitor mixing",
    "sound check",
    "wireless systems",
    "troubleshooting"])
]

/-- One section of `PROFESSIONAL_PERFORMANCE_KNOWLEDGE`: its description and
its categories, each category holding (concept name, description) pairs. -/
structure PerfSection where
  description : String
  concepts : List (String × List (String × String))
deriving DecidableEq

/-- The professional performance knowledge table
(`PROFESSIONAL_PERFORMANCE_KNOWLEDGE`). -/
def PROFESSIONAL_PERFORMANCE_KNOWLEDGE : List (String × PerfSection) := [
  ("advanced_nashville_applications",
   ⟨"Professional Nashville Number System applications in real-world contexts",
   [
    ("live_performance",
      [("key_change_communication",
        "Hand signals and verbal cues for last-minute key changes"),
       ("chart_reading",
        "Quick chart interpretation during live performance"),
       ("progression_calling",
        "Real-time progression communication with band members"),
       ("tempo_changes",
        "Communicating tempo shifts using Nashville notation"),
       ("modulation_techniques",
        "Professional modulation and key center changes")]),
    ("studio_applications",
      [("session_communication",
        "Professional studio chart reading and notation"),
       ("producer_language",
        "Communicating musical ideas with producers and engineers"),
       ("arrangement_notation",
        "Using Nashville numbers for arrangement discussions"),
       ("overdub_coordination",
        "Coordinating multiple instrument parts using number system"),
       ("demo_creation",
        "Quick demo creation using Nashville number shortcuts")]),
    ("advanced_patterns",
      [("modal_applications",
        "Nashville numbers in modal contexts and borrowed chords"),
       ("complex_progressions",
        "Advanced progressions beyond basic triadic patterns"),
       ("rhythmic_notation",
        "Incorporating rhythmic elements into Nashville charts"),
       ("dynamic_markings",
        "Adding dynamics and articulation to number charts"),
       ("form_notation",
        "Song form and structure notation using Nashville system")])]⟩),
  ("professional_ear_training",
   ⟨"Industry-standard ear training and transcription methodologies",
   [
    ("transcription_techniques",
      [("melody_transcription",
        "Step-by-step methodology for accurate melody transcription"),
       ("chord_progression_analysis",
        "Hearing and notating complex chord progressions"),
       ("bass_line_transcription",
        "Identifying bass movement and chord inversions"),
       ("rhythm_transcription",
        "Accurate rhythmic notation and syncopation"),
       ("solo_transcription",
        "Professional techniques for solo and improvisation transcription")]),
    ("interval_mastery",
      [("melodic_intervals",
        "Precise identification of melodic interval relationships"),
       ("harmonic_intervals",
        "Simultaneous interval recognition in chord contexts"),
       ("compound_intervals",
        "Recognition of intervals beyond the octave"),
       ("microtonal_awareness",
        "Subtle pitch relationships and intonation"),
       ("contextual_intervals",
        "Interval recognition within musical contexts")]),
    ("chord_recognition",
      [("triad_identification",
        "Rapid major, minor, diminished, augmented recognition"),
       ("seventh_chord_types",
        "All seventh chord qualities and inversions"),
       ("extended_chords",
        "9th, 11th, 13th chord recognition and analysis"),
       ("altered_chords",
        "Chromatic alterations and substitute chord recognition"),
       ("voicing_analysis",
        "Identifying specific chord voicings and inversions")]),
    ("real_time_analysis",
      [("harmonic_rhythm",
        "Identifying chord change timing and patterns"),
       ("key_center_identification",
        "Quick key recognition and modulation detection"),
       ("form_analysis",
        "Real-time song form and structure analysis"),
       ("style_recognition",
        "Genre-specific harmonic and rhythmic patterns"),
       ("performance_analysis",
        "Analyzing live performance techniques by ear")])]⟩),
  ("advanced_chord_voicings",
   ⟨"Professional chord voicing techniques and creative applications",
   [
    ("jazz_voicings",
      [("rootless_voicings",
        "Professional rootless chord voicings for comping"),
       ("shell_voicings",
        "Essential 3rd and 7th voicings for accompaniment"),
       ("upper_structure_triads",
        "Advanced upper structure chord techniques"),
       ("quartal_voicings",
        "Fourth-based chord voicings and applications"),
       ("cluster_voicings",
        "Dissonant cluster chords and resolution techniques")]),
    ("contemporary_voicings",
      [("pop_chord_colors",
        "Modern pop and rock chord voicing techniques"),
       ("worship_voicings",
        "Contemporary worship and gospel chord applications"),
       ("indie_sounds",
        "Alternative and indie rock chord voicing approaches"),
       ("r_and_b_chords",
        "Soul, R&B, and neo-soul chord voicing styles"),
       ("electronic_adaptations",
        "Chord voicings adapted for electronic music contexts")]),
    ("capo_techniques",
      [("creative_capo_usage",
        "Using capo for unique chord voicings and colors"),
       ("partial_capo_techniques",
        "Advanced partial capo applications"),
       ("capo_transposition",
        "Strategic capo placement for optimal voicings"),
       ("capo_arrangement",
        "Arrangement techniques utilizing capo positioning"),
       ("capo_tone_shaping",
        "Using capo for tonal and textural variations")]),
    ("neck_position_mastery",
      [("chord_inversions_across_neck",
        "Playing same chord in multiple neck positions"),
       ("voice_leading_techniques",
        "Smooth voice leading between chord positions"),
       ("position_specific_voicings",
        "Voicings optimized for specific neck positions"),
       ("fingering_optimization",
        "Efficient fingering patterns for complex voicings"),
       ("neck_visualization",
        "Complete fretboard visualization for chord work")])]⟩),
  ("creative_performance_techniques",
   ⟨"Professional performance skills and creative musical expression",
   [
    ("improvisation_strategies",
      [("melodic_development",
        "Professional melodic improvisation techniques"),
       ("rhythmic_displacement",
        "Advanced rhythmic variation and displacement"),
       ("motivic_development",
        "Developing musical motifs through improvisation"),
       ("call_and_response",
        "Interactive improvisation and musical conversation"),
       ("stylistic_improvisation",
        "Genre-specific improvisation approaches")]),
    ("arrangement_techniques",
      [("instrument_arrangement",
        "Professional multi-instrument arrangement skills"),
       ("texture_management",
        "Creating and managing musical textures"),
       ("dynamic_arrangement",
        "Using dynamics for musical impact"),
       ("sectional_arrangement",
        "Arranging for different musical sections"),
       ("orchestration_principles",
        "Basic orchestration for popular music")]),
    ("live_performance_skills",
      [("stage_presence",
        "Professional stage presence and audience engagement"),
       ("performance_preparation",
        "Systematic preparation for live performance"),
       ("mistake_recovery",
        "Professional recovery from performance errors"),
       ("equipment_management",
        "Live equipment setup and troubleshooting"),
       ("band_communication",
        "Non-verbal communication during performance")]),
    ("creative_expression",
      [("personal_style_development",
        "Developing individual musical voice"),
       ("genre_fusion",
        "Creatively combining different musical styles"),
       ("experimental_techniques",
        "Exploring unconventional playing approaches"),
       ("composition_integration",
        "Integrating compositional elements into performance"),
       ("interpretive_skills",
        "Personal interpretation of existing music")])]⟩),
  ("tone_and_production_mastery",
   ⟨"Professional tone shaping, effects usage, and production techniques",
   [
    ("signal_chain_optimization",
      [("signal_flow_fundamentals",
        "Understanding audio signal flow and optimization"),
       ("impedance_matching",
        "Proper impedance relationships in signal chain"),
       ("gain_staging",
        "Professional gain staging throughout signal chain"),
       ("noise_management",
        "Minimizing noise and interference in signal path"),
       ("buffer_placement",
        "Strategic buffer placement for signal integrity")]),
    ("effects_mastery",
      [("modulation_effects",
        "Professional use of chorus, flanger, phaser, tremolo"),
       ("time_based_effects",
        "Delay and reverb techniques for musical enhancement"),
       ("distortion_techniques",
        "Overdrive, distortion, and fuzz applications"),
       ("filter_effects",
        "Wah, envelope filters, and EQ for tonal shaping"),
       ("creative_effects_usage",
        "Unconventional and creative effects applications")]),
    ("recording_techniques",
      [("microphone_selection",
        "Choosing appropriate microphones for different sources"),
       ("mic_placement",
        "Professional microphone placement techniques"),
       ("direct_recording",
        "DI recording techniques and signal processing"),
       ("ambient_recording",
        "Room tone and ambient recording techniques"),
       ("multi_tracking",
        "Professional multi-track recording approaches")]),
    ("live_sound_management",
      [("monitor_mixing",
        "Personal monitor mixing and feedback management"),
       ("venue_adaptation",
        "Adapting tone and setup to different venues"),
       ("troubleshooting",
        "Quick diagnosis and resolution of sound issues"),
       ("sound_check_efficiency",
        "Efficient sound check procedures"),
       ("wireless_systems",
        "Professional wireless guitar system usage")])]⟩)
]
/-! Functions of `slakh_instrument_data.py`. -/

/-- `get_enhanced_music_keywords()`: the union
`current_keywords | professional_terms | {name.lower() for name in SLAKH_INSTRUMENT_CLASSES}`. -/
def get_enhanced_music_keywords : List String :=
  slakh_current_keywords ++
    (PROFESSIONAL_INSTRUMENT_TERMS.map Prod.snd).flatten ++
    SLAKH_INSTRUMENT_CLASSES.map (fun p => pyLower p.1)

/-- `get_instrument_class(midi_program)`:
`MIDI_TO_SLAKH_CLASS.get(midi_program, 'Unknown')`. -/
def get_instrument_class (midi_program : Nat) : String :=
  ((MIDI_TO_SLAKH_CLASS.find? (fun p => p.1 == midi_program)).map Prod.snd).getD "Unknown"

/-- `get_instrument_info(class_name)`:
`SLAKH_INSTRUMENT_CLASSES.get(class_name, {})`; the falsy empty-dict default
is the `none` case. -/
def get_instrument_info (class_name : String) : Option SlakhClassInfo :=
  (SLAKH_INSTRUMENT_CLASSES.find? (fun p => p.1 == class_name)).map Prod.snd

/-- `is_professional_music_term(text)`: any enhanced keyword is a substring of
the lowered text (the keyword itself is not lowered here), or any instrument
class name, lowered, is a substring of the lowered text. -/
def is_professional_music_term (text : String) : Bool :=
  let text_lower := pyLower text
  get_enhanced_music_keywords.any (fun keyword => substr keyword text_lower) ||
    SLAKH_INSTRUMENT_CLASSES.any (fun p => substr (pyLower p.1) text_lower)

/-! Functions of `musictheory_net_data.py`. -/

/-- `get_comprehensive_music_theory_keywords()`: all terminology categories,
all curriculum concepts, the `SCALE_PATTERNS` keys and the
`CHORD_CONSTRUCTION` triad/seventh-chord keys. -/
def get_comprehensive_music_theory_keywords : List String :=
  (MUSIC_THEORY_TERMS.map Prod.snd).flatten ++
    (MUSICTHEORY_NET_CURRICULUM.map
      (fun sec => (sec.2.lessons.map TheoryLesson.concepts).flatten)).flatten ++
    SCALE_PATTERNS_keys ++ CHORD_CONSTRUCTION_triads_keys ++
    CHORD_CONSTRUCTION_seventh_chords_keys

/-- The record returned by `get_theory_explanation`. -/
structure TheoryExplanation where
  sectionName : String
  lesson : String
  explanation : String
  key_points : List String
deriving DecidableEq

/-- `get_theory_explanation(concept)`: the first lesson whose lowered concept
list contains the lowered query
(`concept_lower in [c.lower() for c in lesson["concepts"]]`); `None` when no
lesson matches. -/
def get_theory_explanation (concept : String) : Option TheoryExplanation :=
  let concept_lower := pyLower concept
  MUSICTHEORY_NET_CURRICULUM.findSome? fun sec =>
    sec.2.lessons.findSome? fun lesson =>
      if (lesson.concepts.map pyLower).contains concept_lower then
        some ⟨sec.1, lesson.name, lesson.explanation, lesson.key_points⟩
      else none

/-- `is_music_theory_term(text)`: some theory keyword, lowered, is a substring
of the lowered text. -/
def is_music_theory_term (text : String) : Bool :=
  let text_lower := pyLower text
  get_comprehensive_music_theory_keywords.any fun keyword =>
    substr (pyLower keyword) text_lower

/-! Functions of `professional_performance_data.py`. -/

/-- `get_professional_performance_keywords()`: union of all keyword
categories. -/
def get_professional_performance_keywords : List String :=
  (PROFESSIONAL_PERFORMANCE_KEYWORDS.map Prod.snd).flatten

/-- `is_professional_performance_term(text)`: some performance keyword,
lowered, is a substring of the lowered text. -/
def is_professional_performance_term (text : String) : Bool :=
  let text_lower := pyLower text
  get_professional_performance_keywords.any fun keyword =>
    substr (pyLower keyword) text_lower

/-- The record returned by `get_performance_concept_info`. -/
structure PerfConceptInfo where
  sectionName : String
  category : String
  concept : String
  description : String
  context : String
deriving DecidableEq

/-- `get_performance_concept_info(concept)`: the first concept whose lowered
name or lowered description contains the lowered query as a substring;
`None` when nothing matches. -/
def get_performance_concept_info (concept : String) : Option PerfConceptInfo :=
  let concept_lower := pyLower concept
  PROFESSIONAL_PERFORMANCE_KNOWLEDGE.findSome? fun sec =>
    sec.2.concepts.findSome? fun cat =>
      cat.2.findSome? fun c =>
        if substr concept_lower (pyLower c.1) || substr concept_lower (pyLower c.2) then
          some ⟨sec.1, cat.1, c.1, c.2, sec.2.description⟩
        else none

/-! The Qwen runner (`qwen_music_tutor.py`).  All three knowledge pillars are
taken as available (`SLAKH_AVAILABLE`, `THEORY_AVAILABLE`,
`PERFORMANCE_AVAILABLE` all true), which is the state of the repository as
shipped: the three data modules import unconditionally. -/

/-- `self.music_keywords`: the union of the three pillar keyword sets (the
`enhanced_keywords` set is nonempty, so the fallback table is not used). -/
def music_keywords : List String :=
  get_enhanced_music_keywords ++ get_comprehensive_music_theory_keywords ++
    get_professional_performance_keywords

/-- Single-character class: exactly `d`. -/
def isChar (d : Char) (c : Char) : Bool := c == d

/-- Character class `[1-7]`. -/
def isDigit17 (c : Char) : Bool := '1' ≤ c && c ≤ '7'

/-- Character class `[A-G]`. -/
def isLetterAG (c : Char) : Bool := 'A' ≤ c && c ≤ 'G'

/-- Character class `[#b]`. -/
def isSharpOrFlat (c : Char) : Bool := c == '#' || c == 'b'

/-- Character class `[24]`. -/
def isSus24 (c : Char) : Bool := c == '2' || c == '4'

/-- `nashville_patterns`, transcribed token by token (run against the lowered
text). -/
def nashville_patterns : List (List RTok) :=
  [[.bnd, .cls isDigit17, .opt (isChar 'm'), .bnd],
   -- \b[1-7]m?\b
   [.bnd, .cls isDigit17, .cls (isChar '7'), .bnd],
   -- \b[1-7]7\b
   [.bnd, .cls isDigit17, .cls (isChar '°'), .bnd],
   -- \b[1-7]°\b
   [.bnd, .cls isDigit17, .cls (isChar '/'), .cls isDigit17, .bnd],
   -- \b[1-7]/[1-7]\b
   [.bnd, .cls (isChar 'b'), .cls isDigit17, .bnd],
   -- \bb[1-7]\b
   [.bnd, .cls isDigit17, .cls (isChar 's'), .cls (isChar 'u'), .cls (isChar 's'),
    .cls isSus24, .bnd]]
   -- \b[1-7]sus[24]\b

/-- `chord_patterns`, transcribed token by token (run against the
original-case text).  In the first pattern `11?` is the literal `1` followed
by an optional `1`, and `13?` is the literal `1` followed by an optional `3`,
so the pattern demands a literal `11` after the optional `m`/`7`/`9`. -/
def chord_patterns : List (List RTok) :=
  [[.bnd, .cls isLetterAG, .opt isSharpOrFlat, .opt (isChar 'm'), .opt (isChar '7'),
    .opt (isChar '9'), .cls (isChar '1'), .opt (isChar '1'), .cls (isChar '1'),
    .opt (isChar '3'), .bnd],
   -- \b[A-G][#b]?m?7?9?11?13?\b
   [.bnd, .cls isLetterAG, .opt isSharpOrFlat, .cls (isChar 's'), .cls (isChar 'u'),
    .cls (isChar 's'), .cls isSus24, .bnd],
   -- \b[A-G][#b]?sus[24]\b
   [.bnd, .cls isLetterAG, .opt isSharpOrFlat, .cls (isChar 'd'), .cls (isChar 'i'),
    .cls (isChar 'm'), .bnd],
   -- \b[A-G][#b]?dim\b
   [.bnd, .cls isLetterAG, .opt isSharpOrFlat, .cls (isChar 'a'), .cls (isChar 'u'),
    .cls (isChar 'g'), .bnd]]
   -- \b[A-G][#b]?aug\b

/-- `MusicTutorRunner.is_music_related(text)` with all pillars available;
`music_only` is `self.music_only`. -/
def is_music_related (music_only : Bool) (text : String) : Bool :=
  if !music_only then true
  else if is_professional_music_term text then true
  else if is_music_theory_term text then true
  else if is_professional_performance_term text then true
  else
    let text_lower := pyLower text
    if music_keywords.any (fun keyword => substr keyword text_lower) then true
    else if nashville_patterns.any (fun pat => reSearch pat text_lower) then true
    else if chord_patterns.any (fun pat => reSearch pat text) then true
    else false

/-- The `context_additions` list built by
`MusicTutorRunner.enrich_context_with_knowledge`: MIDI numbers 0–127 occurring
as decimal substrings of the raw input, instrument names occurring
(case-insensitively) in the input, then one best-effort theory lookup and one
performance lookup on the whole input.  The Python guard
`if instrument_class:` is the nonemptiness test. -/
def context_additions (user_input : String) : List String :=
  let midiAdds := (List.range 128).filterMap fun program_num =>
    if substr (toString program_num) user_input then
      let instrument_class := get_instrument_class program_num
      if instrument_class ≠ "" then
        some ("MIDI " ++ toString program_num ++ " maps to " ++ instrument_class)
      else none
    else none
  let instrAdds := SLAKH_INSTRUMENT_CLASSES.filterMap fun p =>
    if substr (pyLower p.1) (pyLower user_input) then
      match get_instrument_info p.1 with
      | some info => some (p.1 ++ ": " ++ info.description)
      | none => none
    else none
  let theoryAdds := match get_theory_explanation user_input with
    | some concept_found => ["Theory context: " ++ concept_found.explanation]
    | none => []
  let perfAdds := match get_performance_concept_info user_input with
    | some performance_concept => ["Performance context: " ++ performance_concept.description]
    | none => []
  midiAdds ++ instrAdds ++ theoryAdds ++ perfAdds

/-- `MusicTutorRunner.enrich_context_with_knowledge(user_input)`: append the
first three context additions under a `Relevant context:` label, or return
the input unchanged when there are none. -/
def enrich_context_with_knowledge (user_input : String) : String :=
  let adds := context_additions user_input
  if adds ≠ [] then
    user_input ++ "\n\nRelevant context: " ++ String.intercalate " | " (adds.take 3)
  else user_input

/-- `get_comprehensive_capabilities()` with all pillars available. -/
def get_comprehensive_capabilities : String :=
  String.intercalate ", "
    ["Nashville numbers and chord progressions",
     "34 professional instrument classes with MIDI mappings",
     "advanced synthesis and production techniques",
     "complete music theory curriculum",
     "harmonic analysis and voice leading",
     "notation, rhythm, scales, and intervals",
     "professional performance and ear training",
     "advanced chord voicings and live techniques",
     "studio communication and arrangement skills"]

/-- The fixed refusal text produced by `chat_response`/`generate_response`
for non-music questions. -/
def refusal_message : String :=
  "I\x27m sorry, I can only explain music-related questions or concepts. I specialize in "
    ++ get_comprehensive_capabilities
    ++ ". Please ask me about music theory, Nashville numbers, chord progressions, instruments, or other musical topics!"

/-- One element of a message's content list
(`{"type": "text", ...}` / `{"type": "audio", ...}`). -/
inductive ContentItem where
  | text (s : String)
  | audio
deriving DecidableEq

/-- Message content: a plain string (assistant/system turns) or an item list
(user turns built by the interactive loop). -/
inductive Content where
  | str (s : String)
  | items (l : List ContentItem)
deriving DecidableEq

/-- One conversation turn (`{"role": ..., "content": ...}`). -/
structure Msg where
  role : String
  content : Content
deriving DecidableEq

/-- The text extraction in `chat_response`: a list content joins its
`"text"`-typed parts with a space; a plain string is used as is. -/
def extract_text : Content → String
  | .str s => s
  | .items l =>
    String.intercalate " " (l.filterMap fun it =>
      match it with
      | .text s => some s
      | .audio => none)

/-- Outcome of the call into the external chat collaborator: the text it
generated, or the exception message it raised. -/
inductive LLMResult where
  | ok (text : String)
  | err (msg : String)
deriving DecidableEq

/-- The observable outcome of `chat_response`: the returned text and whether
the external collaborator was actually invoked. -/
structure ChatResult where
  text : String
  contacted : Bool
deriving DecidableEq

/-- `MusicTutorRunner.chat_response` (text channel): the model-availability
guard, the music gate on the latest user message (`if latest_text and not
self.is_music_related(latest_text)`), then the collaborator call; an
exception from the collaborator is caught and becomes the
`"Error generating chat response: ..."` string. -/
def chat_response (model_loaded music_only : Bool) (messages : List Msg)
    (llm : LLMResult) : ChatResult :=
  if !model_loaded then
    ⟨"Error: Qwen2-Audio model not available or not loaded properly", false⟩
  else
    let rejected :=
      match (messages.filter (fun m => m.role == "user")).getLast? with
      | some m =>
        let latest_text := extract_text m.content
        latest_text != "" && !is_music_related music_only latest_text
      | none => false
    if rejected then ⟨refusal_message, false⟩
    else
      match llm with
      | .ok response_text => ⟨response_text, true⟩
      | .err e => ⟨"Error generating chat response: " ++ e, true⟩

/-- Python slice `l[-n:]`; for `n = 0` the slice is the whole list. -/
def pyTailSlice (n : Nat) (l : List α) : List α :=
  if n = 0 then l else l.drop (l.length - n)

/-- The history-trimming step of `interactive_mode`: once the history exceeds
`max_history_length`, keep every system message followed by the last
`max_history_length` messages. -/
def trim_history (max_history_length : Nat) (history : List Msg) : List Msg :=
  if history.length > max_history_length then
    history.filter (fun m => m.role == "system") ++
      pyTailSlice max_history_length history
  else history

/-- The observable outcome of one interactive turn: the history afterwards,
the text shown, and whether the collaborator was invoked. -/
structure StepResult where
  history : List Msg
  output : String
  contacted : Bool
deriving DecidableEq

/-- One pass through the body of `interactive_mode` for a plain text input:
build the user turn; in single-question mode send it alone and leave the
history untouched; in conversational mode append it to the history, trim,
send, and append the assistant turn exactly when the result is nonempty and
does not start with `"Error:"`. -/
def interactive_step (music_only single_question_mode : Bool)
    (max_history_length : Nat) (history : List Msg) (user_input : String)
    (llm : LLMResult) : StepResult :=
  let userMsg : Msg := ⟨"user", .items [.text user_input]⟩
  if single_question_mode then
    let result := chat_response true music_only [userMsg] llm
    ⟨history, result.text, result.contacted⟩
  else
    let h1 := history ++ [userMsg]
    let h2 := trim_history max_history_length h1
    let result := chat_response true music_only h2 llm
    if result.text != "" && !(py_startswith result.text "Error:") then
      ⟨h2 ++ [⟨"assistant", .str result.text⟩], result.text, result.contacted⟩
    else ⟨h2, result.text, result.contacted⟩

/-! History handling of `openai_music_tutor.py`'s
`MusicTutor.generate_response`.  Its own `is_music_related` (a different
keyword table plus case-insensitive regexes) is passed as the explicit
parameter `is_music`, exactly as the method reads `self.is_music_related`;
the claims settled here concern the history frame effects, which do not
depend on that classifier's internals. -/

/-- One `{role, content}` message of the OpenAI tutor. -/
structure OaMsg where
  role : String
  content : String
deriving DecidableEq

/-- The observable outcome of `MusicTutor.generate_response`: the
conversation history afterwards, the concatenated yielded text, and whether
the API was called. -/
structure OaResult where
  history : List OaMsg
  output : String
  contacted : Bool
deriving DecidableEq

/-- The fixed refusal yielded by `MusicTutor.generate_response`. -/
def horizonjam_refusal : String :=
  "🎵 Hi! I\x27m HorizonJam, your music theory tutor. I only answer music-related questions about theory, chords, scales, instruments, and practice tips. Please ask me something about music!"

/-- `MusicTutor.generate_response`: rejection yields the refusal before any
API call and leaves `self.conversation_history` alone; on success both the
user turn and the assistant turn are appended; an exception is caught and
yields the `"Error generating response: ..."` string with no append. -/
def oa_generate_response (is_music : String → Bool) (allow_all_topics : Bool)
    (history : List OaMsg) (prompt : String) (llm : LLMResult) : OaResult :=
  if !allow_all_topics && !is_music prompt then
    ⟨history, horizonjam_refusal, false⟩
  else
    match llm with
    | .ok full_response =>
      ⟨history ++ [⟨"user", prompt⟩, ⟨"assistant", full_response⟩],
       full_response, true⟩
    | .err e => ⟨history, "Error generating response: " ++ e, true⟩
/-! Auxiliary lemmas about the string model.  -/

set_option maxRecDepth 20000

/-- `lowerChar` maps a character either to itself or to an ASCII lowercase
letter. -/
theorem lowerChar_cases (c : Char) :
    lowerChar c = c ∨ lowerChar c ∈ asciiLowers := by
  cases h : caseTable.find? (fun p => p.1 == c) with
  | none => left; simp [lowerChar, h]
  | some p =>
    right
    have hm : p ∈ caseTable := List.mem_of_find?_eq_some h
    have h2 : p.2 ∈ caseTable.map Prod.snd := List.mem_map_of_mem _ hm
    have h3 : caseTable.map Prod.snd = asciiLowers := by decide
    rw [h3] at h2
    simpa [lowerChar, h] using h2

/-- ASCII lowercase letters are fixed points of `lowerChar`. -/
theorem lowerChar_fix : ∀ c ∈ asciiLowers, lowerChar c = c := by decide

/-- `lowerChar` is idempotent. -/
theorem lowerChar_idem (c : Char) : lowerChar (lowerChar c) = lowerChar c := by
  rcases lowerChar_cases c with h | h
  · rw [h, h]
  · exact lowerChar_fix _ h

/-- `lowerChar` never yields the uppercase letter `I`. -/
theorem lowerChar_ne_I (c : Char) : lowerChar c ≠ 'I' := by
  by_cases hc : c = 'I'
  · subst hc; decide
  · rcases lowerChar_cases c with h | h
    · rw [h]; exact hc
    · intro heq; rw [heq] at h; exact absurd h (by decide)

/-- Mapping `lowerChar` is idempotent on character lists. -/
theorem map_lowerChar_idem (l : List Char) :
    (l.map lowerChar).map lowerChar = l.map lowerChar := by
  induction l with
  | nil => rfl
  | cons c l ih => simp only [List.map_cons, lowerChar_idem, ih]

/-- `pyLower` is idempotent. -/
theorem pyLower_idem (s : String) : pyLower (pyLower s) = pyLower s := by
  show String.mk ((s.data.map lowerChar).map lowerChar) = String.mk (s.data.map lowerChar)
  exact congrArg String.mk (map_lowerChar_idem s.data)

/-- A prefix only uses characters of the larger list. -/
theorem listIsPrefixOf_subset {as bs : List Char} (h : listIsPrefixOf as bs = true) :
    ∀ c ∈ as, c ∈ bs := by
  induction as generalizing bs with
  | nil => simp
  | cons a as ih =>
    cases bs with
    | nil => simp [listIsPrefixOf] at h
    | cons b bs =>
      simp only [listIsPrefixOf, Bool.and_eq_true, beq_iff_eq] at h
      intro c hc
      rcases List.mem_cons.mp hc with rfl | hc
      · simp [h.1]
      · exact List.mem_cons_of_mem _ (ih h.2 c hc)

/-- An infix only uses characters of the larger list. -/
theorem listIsInfixOf_subset {as bs : List Char} (h : listIsInfixOf as bs = true) :
    ∀ c ∈ as, c ∈ bs := by
  induction bs with
  | nil => exact listIsPrefixOf_subset h
  | cons b bs ih =>
    simp only [listIsInfixOf, Bool.or_eq_true] at h
    rcases h with h | h
    · exact listIsPrefixOf_subset h
    · exact fun c hc => List.mem_cons_of_mem _ (ih h c hc)

/-- A needle containing the uppercase letter `I` is never a substring of a
lowered string. -/
theorem substr_lower_no_I {k t : String} (hI : 'I' ∈ k.data) :
    substr k (pyLower t) = false := by
  by_contra h
  simp only [Bool.not_eq_false] at h
  have hmem := listIsInfixOf_subset h 'I' hI
  have : (pyLower t).data = t.data.map lowerChar := rfl
  rw [this] at hmem
  obtain ⟨c, _, hc⟩ := List.mem_map.mp hmem
  exact lowerChar_ne_I c hc

/-- Every theory keyword is its own lowering, except the three Roman-numeral
progression names, each of which contains the uppercase letter `I`. -/
theorem theory_keyword_lower_or_I :
    ∀ k ∈ get_comprehensive_music_theory_keywords,
      pyLower k = k ∨ 'I' ∈ k.data := by decide

/-- Every professional-performance keyword is its own lowering. -/
theorem perf_keyword_lower :
    ∀ k ∈ get_professional_performance_keywords, pyLower k = k := by decide

/-- Each of the three specialised term tests forces `is_music_related` to
accept. -/
theorem is_music_related_true_of (music_only : Bool) (text : String)
    (h : is_professional_music_term text = true ∨
         is_music_theory_term text = true ∨
         is_professional_performance_term text = true) :
    is_music_related music_only text = true := by
  unfold is_music_related
  rcases h with h | h | h <;> simp [h]

/-- Splitting membership in the `music_keywords` union into the three pillar
keyword sets. -/
theorem mem_music_keywords_cases {k : String} (hk : k ∈ music_keywords) :
    k ∈ get_enhanced_music_keywords ∨
      k ∈ get_comprehensive_music_theory_keywords ∨
      k ∈ get_professional_performance_keywords := by
  have h1 : k ∈ (get_enhanced_music_keywords ++
      get_comprehensive_music_theory_keywords) ++
      get_professional_performance_keywords := hk
  rcases List.mem_append.mp h1 with h | h
  · rcases List.mem_append.mp h with h | h
    · exact Or.inl h
    · exact Or.inr (Or.inl h)
  · exact Or.inr (Or.inr h)

/-- Claim C1: with the music-only gate enabled, any input whose lowering
contains a configured keyword (an element of the runner's `music_keywords`
union) as a substring is accepted by `is_music_related`.  (This is the
spec's reading: the keyword is tested against the lowered input; keywords
that are not themselves lowercase can then never fire, see the C6
theorems.) -/
theorem C1_keyword_substring_accepted (text keyword : String)
    (hk : keyword ∈ music_keywords)
    (hsub : substr keyword (pyLower text) = true) :
    is_music_related true text = true := by
  apply is_music_related_true_of
  rcases mem_music_keywords_cases hk with hk | hk | hk
  · -- a Slakh keyword: `is_professional_music_term` tests exactly this
    left
    have hany : get_enhanced_music_keywords.any
        (fun keyword => substr keyword (pyLower text)) = true :=
      List.any_eq_true.mpr ⟨keyword, hk, hsub⟩
    simp [is_professional_music_term, hany]
  · -- a theory keyword: `is_music_theory_term` lowers the keyword first
    right; left
    rcases theory_keyword_lower_or_I keyword hk with hlow | hI
    · have hany : get_comprehensive_music_theory_keywords.any
          (fun keyword => substr (pyLower keyword) (pyLower text)) = true :=
        List.any_eq_true.mpr ⟨keyword, hk, by rw [hlow]; exact hsub⟩
      simp [is_music_theory_term, hany]
    · rw [substr_lower_no_I hI] at hsub
      exact absurd hsub (by decide)
  · -- a performance keyword: also lowered first, and always lowercase
    right; right
    have hany : get_professional_performance_keywords.any
        (fun keyword => substr (pyLower keyword) (pyLower text)) = true :=
      List.any_eq_true.mpr ⟨keyword, hk, by rw [perf_keyword_lower keyword hk]; exact hsub⟩
    simp [is_professional_performance_term, hany]

/-- Witness for C1 at a concrete input: `"music"` is a configured keyword,
it occurs in the lowering of `"What is music?"`, and the classifier
accepts. -/
theorem C1_keyword_substring_accepted_witness :
    "music" ∈ music_keywords ∧
      substr "music" (pyLower "What is music?") = true ∧
      is_music_related true "What is music?" = true :=
  ⟨by decide, by decide,
    C1_keyword_substring_accepted "What is music?" "music" (by decide) (by decide)⟩

/-- Claim C10: the empty string is rejected; no configured keyword, no
Nashville pattern and no chord pattern matches the empty input, and none of
the three specialised term tests fires. -/
theorem C10_empty_string_rejected :
    is_music_related true "" = false ∧
      music_keywords.any (fun keyword => substr keyword (pyLower "")) = false ∧
      nashville_patterns.any (fun pat => reSearch pat (pyLower "")) = false ∧
      chord_patterns.any (fun pat => reSearch pat "") = false ∧
      is_professional_music_term "" = false ∧
      is_music_theory_term "" = false ∧
      is_professional_performance_term "" = false := by
  refine ⟨by decide, by decide, by decide, by decide, by decide, by decide, by decide⟩

/-- Claim C2 (evaluation at the failing input): letter-chord matching is
case-sensitive and runs on the original-case text — the lowercase input
`"c"` fires no chord pattern and is rejected, and `"cdim"` fires none while
`"Cdim"` does — but the bare uppercase letter `"C"` also fires no chord
pattern and is rejected, because `11?13?` in
`\b[A-G][#b]?m?7?9?11?13?\b` parses as the mandatory literal `11` (with
optional `1` and `3` interleaved), contradicting the code's own
`# C, Dm, F#maj7, etc.` comment; `"C11"` does match. -/
theorem C2_chord_case_sensitivity_eval :
    is_music_related true "c" = false ∧
      chord_patterns.any (fun pat => reSearch pat "c") = false ∧
      is_music_related true "C" = false ∧
      chord_patterns.any (fun pat => reSearch pat "C") = false ∧
      chord_patterns.any (fun pat => reSearch pat "cdim") = false ∧
      chord_patterns.any (fun pat => reSearch pat "Cdim") = true ∧
      is_music_related true "Cdim" = true ∧
      chord_patterns.any (fun pat => reSearch pat "C11") = true := by
  refine ⟨by decide, by decide, by decide, by decide, by decide, by decide, by decide, by decide⟩
/-! Session-level lemmas. -/

/-- `extract_text` of a single-text content list is its text. -/
theorem extract_text_items_single (s : String) :
    extract_text (Content.items [ContentItem.text s]) = s := rfl

/-- The latest user message of `history ++ [user turn]` is the appended
turn. -/
theorem latest_user_concat (hist : List Msg) (input : String) :
    ((hist ++ [(⟨"user", Content.items [ContentItem.text input]⟩ : Msg)]).filter
        (fun m => m.role == "user")).getLast?
      = some (⟨"user", Content.items [ContentItem.text input]⟩ : Msg) := by
  rw [List.filter_append]
  have h1 : List.filter (fun m => m.role == "user")
      [(⟨"user", Content.items [ContentItem.text input]⟩ : Msg)]
      = [⟨"user", Content.items [ContentItem.text input]⟩] := rfl
  rw [h1]
  exact List.getLast?_concat _

/-- `chat_response` on a history ending in a nonempty non-music user turn
returns the refusal without contacting the collaborator. -/
theorem chat_response_concat_reject (mo : Bool) (hist : List Msg)
    (input : String) (llm : LLMResult) (hne : input ≠ "")
    (hrej : is_music_related mo input = false) :
    chat_response true mo (hist ++ [⟨"user", .items [.text input]⟩]) llm
      = ⟨refusal_message, false⟩ := by
  simp [chat_response, latest_user_concat, extract_text_items_single, hrej, hne]

/-- `chat_response` on a history ending in an accepted user turn returns the
collaborator's text. -/
theorem chat_response_concat_ok (mo : Bool) (hist : List Msg)
    (input t : String) (hacc : is_music_related mo input = true) :
    chat_response true mo (hist ++ [⟨"user", .items [.text input]⟩]) (.ok t)
      = ⟨t, true⟩ := by
  simp [chat_response, latest_user_concat, extract_text_items_single, hacc]

/-- Trimming is the identity while the history fits the window. -/
theorem trim_history_of_le (limit : Nat) (h : List Msg)
    (hle : h.length ≤ limit) : trim_history limit h = h := by
  unfold trim_history
  rw [if_neg (by omega)]

/-- Claim C3 (evaluation at the failing input): when the external
collaborator raises (here `"Request timed out"`) on a music-related query,
`chat_response` catches the exception and returns
`"Error generating chat response: ..."` — a string that does *not* start
with the `"Error:"` prefix the interactive loop tests for — so the loop
treats it as a normal answer and appends it to the conversation history as
an assistant turn. -/
theorem C3_collaborator_error_eval :
    (interactive_step true false 6 [] "What is a chord progression?"
        (.err "Request timed out")).output
      = "Error generating chat response: Request timed out" ∧
      py_startswith (interactive_step true false 6 [] "What is a chord progression?"
          (.err "Request timed out")).output "Error:" = false ∧
      (interactive_step true false 6 [] "What is a chord progression?"
          (.err "Request timed out")).history
        = [⟨"user", .items [.text "What is a chord progression?"]⟩,
           ⟨"assistant", .str "Error generating chat response: Request timed out"⟩] := by
  refine ⟨by decide, by decide, by decide⟩

/-- Claim C4 (counterexample): in the Qwen interactive loop, conversational
mode, a rejected query does *not* leave the history length unchanged — the
user turn is appended before classification and the refusal is appended as
an assistant turn, so the history grows by 2 (the external service is still
never contacted and the output is the fixed refusal). -/
theorem C4_rejected_query_appends_history :
    is_music_related true "What is the weather like today?" = false ∧
      (interactive_step true false 6 [] "What is the weather like today?"
          (.ok "unused")).history.length = 2 ∧
      (interactive_step true false 6 [] "What is the weather like today?"
          (.ok "unused")).contacted = false ∧
      (interactive_step true false 6 [] "What is the weather like today?"
          (.ok "unused")).output = refusal_message := by
  refine ⟨by decide, by decide, by decide, by decide⟩

/-- Claim C4 as amended.  (1) Single-question mode never touches the
history.  (2) In the OpenAI tutor's `generate_response`, a rejected query
returns the fixed refusal without contacting the service and without
mutating history, and (3) an accepted query appends exactly the user and
assistant turns.  (4) In the Qwen interactive loop (conversational mode,
history under the window), a *rejected* query also grows the history by
exactly 2 — user turn plus refusal-as-assistant-turn — while returning the
fixed refusal without contacting the service, and (5) an accepted query
grows it by exactly 2 (user turn plus assistant turn). -/
theorem C4_amended :
    (∀ (mo : Bool) (limit : Nat) (hist : List Msg) (input : String)
        (llm : LLMResult),
        (interactive_step mo true limit hist input llm).history = hist) ∧
    (∀ (is_music : String → Bool) (hist : List OaMsg) (prompt : String)
        (llm : LLMResult), is_music prompt = false →
        (oa_generate_response is_music false hist prompt llm).history = hist ∧
          (oa_generate_response is_music false hist prompt llm).contacted = false ∧
          (oa_generate_response is_music false hist prompt llm).output
            = horizonjam_refusal) ∧
    (∀ (is_music : String → Bool) (hist : List OaMsg) (prompt t : String),
        is_music prompt = true →
        (oa_generate_response is_music false hist prompt (.ok t)).history
          = hist ++ [⟨"user", prompt⟩, ⟨"assistant", t⟩]) ∧
    (∀ (limit : Nat) (hist : List Msg) (input : String) (llm : LLMResult),
        hist.length < limit → input ≠ "" →
        is_music_related true input = false →
        (interactive_step true false limit hist input llm).history
          = (hist ++ [⟨"user", .items [.text input]⟩])
              ++ [⟨"assistant", .str refusal_message⟩] ∧
          (interactive_step true false limit hist input llm).output
            = refusal_message ∧
          (interactive_step true false limit hist input llm).contacted = false) ∧
    (∀ (limit : Nat) (hist : List Msg) (input t : String),
        hist.length < limit → t ≠ "" → py_startswith t "Error:" = false →
        is_music_related true input = true →
        (interactive_step true false limit hist input (.ok t)).history
          = (hist ++ [⟨"user", .items [.text input]⟩])
              ++ [⟨"assistant", .str t⟩]) := by
  refine ⟨?_, ?_, ?_, ?_, ?_⟩
  · intro mo limit hist input llm
    rfl
  · intro is_music hist prompt llm h
    refine ⟨?_, ?_, ?_⟩ <;> simp [oa_generate_response, h]
  · intro is_music hist prompt t h
    simp [oa_generate_response, h]
  · intro limit hist input llm hlt hne hrej
    have htrim : trim_history limit (hist ++ [⟨"user", .items [.text input]⟩])
        = hist ++ [⟨"user", .items [.text input]⟩] :=
      trim_history_of_le _ _ (by simp; omega)
    have hcr := chat_response_concat_reject true hist input llm hne hrej
    have hcond : (refusal_message != ""
        && !(py_startswith refusal_message "Error:")) = true := by decide
    refine ⟨?_, ?_, ?_⟩ <;>
      simp only [interactive_step, htrim, hcr, hcond, if_true, Bool.false_eq_true,
        if_false, reduceIte]
  · intro limit hist input t hlt hne hpre hacc
    have htrim : trim_history limit (hist ++ [⟨"user", .items [.text input]⟩])
        = hist ++ [⟨"user", .items [.text input]⟩] :=
      trim_history_of_le _ _ (by simp; omega)
    have hcr := chat_response_concat_ok true hist input t hacc
    have hcond : (t != "" && !(py_startswith t "Error:")) = true := by
      simp [bne_iff_ne, hne, hpre]
    simp only [interactive_step, htrim, hcr, hcond, if_true, Bool.false_eq_true,
      if_false, reduceIte]

/-- Witness for the amended C4 at concrete inputs: an accepted query in
conversational mode appends exactly the user and assistant turns. -/
theorem C4_amended_witness :
    (interactive_step true false 6
        [⟨"user", .items [.text "What is a chord?"]⟩,
         ⟨"assistant", .str "Several notes sounding together."⟩]
        "What is a chord progression?" (.ok "A sequence of chords.")).history
      = (([⟨"user", .items [.text "What is a chord?"]⟩,
           ⟨"assistant", .str "Several notes sounding together."⟩]
            ++ [⟨"user", .items [.text "What is a chord progression?"]⟩])
          ++ [⟨"assistant", .str "A sequence of chords."⟩]) :=
  C4_amended.2.2.2.2 6
    [⟨"user", .items [.text "What is a chord?"]⟩,
     ⟨"assistant", .str "Several notes sounding together."⟩]
    "What is a chord progression?" "A sequence of chords."
    (by decide) (by decide) (by decide) (by decide)

/-- Claim C5 (counterexample): with window 2, trimming
`[user q1, assistant a1, user q2]` keeps the dangling assistant turn `a1`
while dropping its user turn `q1` — the oldest user/assistant pair *is*
split, contrary to the claimed pair granularity (which would have dropped
`a1` as well). -/
theorem C5_trim_splits_pair :
    trim_history 2
        [⟨"user", .items [.text "q1"]⟩, ⟨"assistant", .str "a1"⟩,
         ⟨"user", .items [.text "q2"]⟩]
      = [⟨"assistant", .str "a1"⟩, ⟨"user", .items [.text "q2"]⟩] ∧
      (⟨"assistant", .str "a1"⟩ : Msg) ∈ trim_history 2
        [⟨"user", .items [.text "q1"]⟩, ⟨"assistant", .str "a1"⟩,
         ⟨"user", .items [.text "q2"]⟩] ∧
      (⟨"user", .items [.text "q1"]⟩ : Msg) ∉ trim_history 2
        [⟨"user", .items [.text "q1"]⟩, ⟨"assistant", .str "a1"⟩,
         ⟨"user", .items [.text "q2"]⟩] := by
  refine ⟨by decide, by decide, by decide⟩

/-- Claim C5 as amended: for a positive window and a history without system
turns, the trimmed history never exceeds the window and is a suffix of the
original history (so the oldest turns are dropped first, wholesale — not at
pair granularity); system turns are always retained by the trimming step. -/
theorem C5_amended :
    (∀ (limit : Nat) (h : List Msg), 0 < limit →
        h.filter (fun m => m.role == "system") = [] →
        (trim_history limit h).length ≤ limit ∧ trim_history limit h <:+ h) ∧
    (∀ (limit : Nat) (h : List Msg) (m : Msg), m ∈ h → m.role = "system" →
        m ∈ trim_history limit h) := by
  constructor
  · intro limit h hpos hsys
    unfold trim_history
    split
    · next hgt =>
      rw [hsys, List.nil_append]
      unfold pyTailSlice
      rw [if_neg (by omega)]
      exact ⟨by rw [List.length_drop]; omega, List.drop_suffix _ _⟩
    · next hng =>
      exact ⟨by omega, List.suffix_refl h⟩
  · intro limit h m hm hrole
    unfold trim_history
    split
    · exact List.mem_append_left _ (List.mem_filter.mpr ⟨hm, by simp [hrole]⟩)
    · exact hm

/-- Witness for the amended C5 at a concrete history. -/
theorem C5_amended_witness :
    (trim_history 2
        [⟨"user", .items [.text "q1"]⟩, ⟨"assistant", .str "a1"⟩,
         ⟨"user", .items [.text "q2"]⟩]).length ≤ 2 ∧
      trim_history 2
        [⟨"user", .items [.text "q1"]⟩, ⟨"assistant", .str "a1"⟩,
         ⟨"user", .items [.text "q2"]⟩]
      <:+ [⟨"user", .items [.text "q1"]⟩, ⟨"assistant", .str "a1"⟩,
           ⟨"user", .items [.text "q2"]⟩] :=
  C5_amended.1 2
    [⟨"user", .items [.text "q1"]⟩, ⟨"assistant", .str "a1"⟩,
     ⟨"user", .items [.text "q2"]⟩] (by decide) (by decide)

/-- Claim C6 (counterexample): the flattened keyword sets are not all
lowercase — the Slakh set contains `"ADSR"` and the theory set contains
`"I-V-I"`, neither of which is its own lowering. -/
theorem C6_uppercase_keywords :
    "ADSR" ∈ get_enhanced_music_keywords ∧ pyLower "ADSR" ≠ "ADSR" ∧
      "I-V-I" ∈ get_comprehensive_music_theory_keywords ∧
      pyLower "I-V-I" ≠ "I-V-I" := by
  refine ⟨by decide, by decide, by decide, by decide⟩

/-- Claim C6 as amended: every flattened keyword is lowercase except exactly
`ADSR`, `LFO` and `MIDI CC` in the Slakh set and the Roman-numeral
progression names `I-V-I`, `ii-V-I` and `vi-IV-I-V` in the theory set; the
performance set is entirely lowercase. -/
theorem C6_amended :
    (∀ k ∈ get_enhanced_music_keywords,
        pyLower k = k ∨ k ∈ ["ADSR", "LFO", "MIDI CC"]) ∧
      (∀ k ∈ get_comprehensive_music_theory_keywords,
        pyLower k = k ∨ k ∈ ["I-V-I", "ii-V-I", "vi-IV-I-V"]) ∧
      (∀ k ∈ get_professional_performance_keywords, pyLower k = k) := by
  refine ⟨by decide, by decide, perf_keyword_lower⟩

/-- Witness for the amended C6 at a concrete keyword. -/
theorem C6_amended_witness :
    pyLower "guitar" = "guitar" ∨ "guitar" ∈ ["ADSR", "LFO", "MIDI CC"] :=
  C6_amended.1 "guitar" (by decide)

/-- Every MIDI program looked up by the enrichment loop has a nonempty
class name (`range(128)` never reaches the `'Unknown'` default either, but
nonemptiness is all the truthiness guard needs). -/
theorem get_instrument_class_nonempty :
    ∀ n, n < 128 → get_instrument_class n ≠ "" := by decide

/-- Claim C7 (counterexample): program 128 maps to Drums and `"128"` occurs
in the input, yet no `MIDI 128` snippet is produced — the enrichment loop is
`range(128)`, i.e. programs 0 through 127 only, not 0 through 128. -/
theorem C7_midi_128_missing :
    get_instrument_class 128 = "Drums" ∧
      substr "128" "What is MIDI 128?" = true ∧
      "MIDI 128 maps to Drums" ∉ context_additions "What is MIDI 128?" := by
  refine ⟨by decide, by decide, by decide⟩

/-- Claim C7 as amended: for every program number 0 through 127 occurring as
a decimal substring of the input, the enrichment snippet list contains
`MIDI N maps to <class>`; and enriching `"What is MIDI 0?"` produces the
`MIDI 0 maps to Piano` snippet in the output. -/
theorem C7_amended :
    (∀ (program_num : Nat) (text : String), program_num < 128 →
        substr (toString program_num) text = true →
        ("MIDI " ++ toString program_num ++ " maps to "
            ++ get_instrument_class program_num) ∈ context_additions text) ∧
      substr "MIDI 0 maps to Piano"
        (enrich_context_with_knowledge "What is MIDI 0?") = true := by
  constructor
  · intro n text hn hsub
    simp only [context_additions]
    refine List.mem_append_left _ (List.mem_append_left _
      (List.mem_append_left _ ?_))
    refine List.mem_filterMap.mpr ⟨n, List.mem_range.mpr hn, ?_⟩
    simp [hsub, get_instrument_class_nonempty n hn]
  · decide

/-- Witness for the amended C7 at a concrete program number and input. -/
theorem C7_amended_witness :
    ("MIDI " ++ toString 0 ++ " maps to " ++ get_instrument_class 0)
      ∈ context_additions "What is MIDI 0?" :=
  C7_amended.1 0 "What is MIDI 0?" (by decide) (by decide)

/-- Claim C8: enrichment either leaves the input unchanged (exactly when no
snippet matched — no empty label is appended) or appends at most the first
three snippets, joined with `" | "`, under the `Relevant context:` label;
in particular `enrich("hello")` is `"hello"`. -/
theorem C8_enrich_truncation_and_noop :
    (∀ text : String,
        (context_additions text = [] ∧
          enrich_context_with_knowledge text = text) ∨
        (context_additions text ≠ [] ∧
          enrich_context_with_knowledge text
            = text ++ "\n\nRelevant context: "
                ++ String.intercalate " | " ((context_additions text).take 3) ∧
          ((context_additions text).take 3).length ≤ 3)) ∧
      enrich_context_with_knowledge "hello" = "hello" := by
  constructor
  · intro text
    by_cases h : context_additions text = []
    · exact Or.inl ⟨h, by simp [enrich_context_with_knowledge, h]⟩
    · refine Or.inr ⟨h, by simp [enrich_context_with_knowledge, h], ?_⟩
      rw [List.length_take]
      exact min_le_left _ _
  · decide

/-- Claim C9 (counterexample): the instrument lookup is *not*
case-insensitive — `get_instrument_info` is a plain dict lookup, present for
`"Piano"` but absent for `"piano"` and `"PIANO"`. -/
theorem C9_instrument_lookup_case_sensitive :
    get_instrument_info "Piano" ≠ none ∧
      get_instrument_info "piano" = none ∧
      get_instrument_info "PIANO" = none := by
  refine ⟨by decide, by decide, by decide⟩

/-- Claim C9 as amended: the theory and performance lookups are
case-insensitive (invariant under lowering the query) and return absent —
not an error — when nothing matches; the Slakh instrument lookup is a
case-sensitive exact match that likewise returns absent for unknown or
differently-cased names. -/
theorem C9_amended :
    (∀ s : String, get_theory_explanation s = get_theory_explanation (pyLower s)) ∧
      (∀ s : String,
        get_performance_concept_info s
          = get_performance_concept_info (pyLower s)) ∧
      get_theory_explanation "TREBLE CLEF" ≠ none ∧
      get_performance_concept_info "TRANSCRIPTION" ≠ none ∧
      get_theory_explanation "definitely unknown concept" = none ∧
      get_performance_concept_info "definitely unknown concept" = none ∧
      get_instrument_info "Piano" ≠ none ∧
      get_instrument_info "piano" = none := by
  refine ⟨?_, ?_, by decide, by decide, by decide, by decide, by decide, by decide⟩
  · intro s
    unfold get_theory_explanation
    rw [pyLower_idem]
  · intro s
    unfold get_performance_concept_info
    rw [pyLower_idem]
